import Mathlib

/-!
Shallow embedding of the Express route handlers of the stripe terminal SDK API
(src/index.js, src/routes/reader.routes.js, src/routes/payment.routes.js,
src/routes/paymentStatus.routes.js).

Each handler is a pure function of the request data and an oracle `Sdk` giving
the outcome of every vendor SDK operation.  A handler returns the HTTP response
it sends together with the trace of SDK calls it performed, in order.
-/

namespace StripeTerminalApi

/-- JSON values, used for response bodies and for the opaque parts of vendor
objects that the handlers pass through without inspecting. -/
inductive JsonVal where
  | str : String → JsonVal
  | num : Int → JsonVal
  | bool : Bool → JsonVal
  | null : JsonVal
  | arr : List JsonVal → JsonVal
  | obj : List (String × JsonVal) → JsonVal

/-- An HTTP response body: `res.json(...)` or `res.send(...)` of a string. -/
inductive ResBody where
  | json : JsonVal → ResBody
  | text : String → ResBody

/-- An HTTP response: status code and body. -/
structure HttpResponse where
  status : Nat
  body : ResBody

/-- An error thrown by an SDK call; the handlers only ever read `.message`. -/
structure StripeError where
  message : String

/-- A terminal reader as returned by the vendor: the handlers read only
`status`; everything else is passed through opaquely in `extra`. -/
structure Reader where
  status : String
  extra : JsonVal

/-- Result of `stripe.terminal.readers.list()`: an object with a `data` array,
whose elements the list handler passes through unchanged. -/
structure ReaderList where
  data : List JsonVal

/-- A payment intent returned by `stripe.paymentIntents.create`: the handlers
read only `id`; the rest is passed through opaquely. -/
structure PaymentIntent where
  id : String
  extra : JsonVal

/-- A payment intent object with the fields the webhook handler and the
payment-status handler project out. -/
structure PaymentIntentObject where
  id : String
  status : JsonVal
  amount : JsonVal
  currency : JsonVal
  payment_method : JsonVal
  created : JsonVal
  metadata : JsonVal
  last_payment_error : JsonVal

/-- A webhook event as returned by `stripe.webhooks.constructEvent`. -/
structure StripeEvent where
  type : String
  dataObject : PaymentIntentObject

/-- Parameters the register handler passes to `stripe.terminal.readers.create`. -/
structure ReaderParams where
  registration_code : String
  label : Option String
  location : Option String
deriving DecidableEq

/-- Parameters passed to `stripe.paymentIntents.create`. -/
structure PaymentIntentParams where
  amount : Int
  currency : String
  payment_method_types : List String
  capture_method : String
  metadata_readerId : String
deriving DecidableEq

/-- One performed SDK call, recorded with its arguments. -/
inductive SdkCall where
  | terminalReadersList
  | terminalReadersCreate (params : ReaderParams)
  | terminalReadersRetrieve (readerId : String)
  | paymentIntentsCreate (params : PaymentIntentParams)
  | paymentIntentsCapture (paymentIntentId : String)
  | paymentIntentsCancel (paymentIntentId : String)
  | paymentIntentsRetrieve (paymentIntentId : String)
  | terminalReadersProcessPaymentIntent (readerId : String) (paymentIntentId : String)
  | testHelpersPresentPaymentMethod (readerId : String)
  | webhooksConstructEvent (rawBody : String) (sig : Option String)
deriving DecidableEq

/-- The SDK oracle: the outcome of every vendor operation the handlers can
invoke.  `Except` models a rejected promise (a thrown error); the `Option` in
retrieval results models the `!result` null checks the handlers perform. -/
structure Sdk where
  terminalReadersList : Except StripeError ReaderList
  terminalReadersCreate : ReaderParams → Except StripeError Reader
  terminalReadersRetrieve : String → Except StripeError (Option Reader)
  paymentIntentsCreate : PaymentIntentParams → Except StripeError PaymentIntent
  paymentIntentsCapture : String → Except StripeError PaymentIntent
  paymentIntentsCancel : String → Except StripeError PaymentIntent
  paymentIntentsRetrieve : String → Except StripeError (Option PaymentIntentObject)
  terminalReadersProcessPaymentIntent : String → String → Except StripeError Reader
  testHelpersPresentPaymentMethod : String → Except StripeError Reader
  webhooksConstructEvent : String → Option String → Except StripeError StripeEvent

/-- What a handler produces: the HTTP response sent and the ordered trace of
SDK calls performed. -/
structure HandlerResult where
  response : HttpResponse
  calls : List SdkCall

/-- JavaScript falsiness of an optional string field: `undefined` and the empty
string are falsy. -/
def jsFalsyStr : Option String → Bool
  | none => true
  | some s => s == ""

/-- JavaScript `a || b` on optional string fields. -/
def jsOrStr (a b : Option String) : Option String :=
  if jsFalsyStr a then b else a

/-- JavaScript `Math.round`: rounds to the nearest integer, halves toward
positive infinity, i.e. `⌊x + 1/2⌋`. -/
def jsMathRound (q : ℚ) : Int :=
  (q + 1 / 2).floor

/-- The `testCards` table of `config/simulated-reader`. -/
structure TestCards where
  visa : String
  mastercard : String
  amex : String
  discover : String

/-- The `defaultReader` settings of `config/simulated-reader`. -/
structure DefaultReaderConfig where
  registration_code : String
  label : String
  location : String

/-- The `testMode` configuration of `config/simulated-reader`. -/
structure TestModeConfig where
  isEnabled : Bool
  simulatePaymentDelay : Nat
  defaultCurrency : String

/-- The shape of the object exported by `config/simulated-reader`. -/
structure SimulatedReaderConfig where
  testCards : TestCards
  defaultReader : DefaultReaderConfig
  testMode : TestModeConfig

/-- The `simulatedReaderConfig` object exported by `config/simulated-reader`,
which both route files require; the handlers only ever read
`testMode.defaultCurrency`. -/
def simulatedReaderConfig : SimulatedReaderConfig where
  testCards :=
    { visa := "4242424242424242"
      mastercard := "5555555555554444"
      amex := "378282246310005"
      discover := "6011111111111117" }
  defaultReader :=
    { registration_code := "simulated-code"
      label := "Test Reader"
      location := "london" }
  testMode :=
    { isEnabled := true
      simulatePaymentDelay := 2000
      defaultCurrency := "usd" }

/-- The `{status: "error", message}` envelope every catch/validation branch
sends. -/
def errorResponse (code : Nat) (msg : String) : HttpResponse :=
  ⟨code, .json (.obj [("status", .str "error"), ("message", .str msg)])⟩

/-- A reader embedded into a response body. -/
def readerJson (r : Reader) : JsonVal :=
  .obj [("status", .str r.status), ("extra", r.extra)]

/-- A possibly-null reader embedded into a response body (the get-reader
handler performs no null check before responding). -/
def optReaderJson : Option Reader → JsonVal
  | none => .null
  | some r => readerJson r

/-- A created payment intent embedded into a response body. -/
def paymentIntentJson (p : PaymentIntent) : JsonVal :=
  .obj [("id", .str p.id), ("extra", p.extra)]

/-- Request body of POST /api/readers/register. -/
structure RegisterBody where
  registration_code : Option String
  label : Option String
  location : Option String
  simulated : Bool := false

/-- Request body of POST /api/payments/create-payment-intent. -/
structure CreatePaymentIntentBody where
  amount : Option ℚ
  currency : Option String
  readerId : Option String
  simulated : Bool := false

/-- Request body of POST /api/payments/process-payment/:readerId.  The
`simulated` field may be present in a request but is never read by the
handler. -/
structure ProcessPaymentBody where
  payment_intent : Option String
  simulated : Bool := false

/-- Request body of POST /api/payments/create-and-process-payment/:readerId. -/
structure CreateAndProcessBody where
  amount : Option ℚ
  currency : Option String
  simulated : Bool := false

/-- GET /api/readers — list all terminal readers. -/
def listReadersHandler (sdk : Sdk) : HandlerResult :=
  match sdk.terminalReadersList with
  | .ok readers =>
      ⟨⟨200, .json (.obj [("status", .str "success"), ("readers", .arr readers.data)])⟩,
       [.terminalReadersList]⟩
  | .error e =>
      ⟨errorResponse 500 e.message, [.terminalReadersList]⟩

/-- POST /api/readers/register — register a terminal reader. -/
def registerReaderHandler (sdk : Sdk) (body : RegisterBody) : HandlerResult :=
  let regCode : Option String :=
    if body.simulated then some "simulated-wpe" else body.registration_code
  match regCode with
  | none =>
      ⟨errorResponse 400 "Registration code is required for physical readers", []⟩
  | some code =>
      if code == "" then
        ⟨errorResponse 400 "Registration code is required for physical readers", []⟩
      else
        let readerParams : ReaderParams :=
          { registration_code := code
            label := jsOrStr body.label (if body.simulated then some "Simulated Reader" else none)
            location := jsOrStr body.location (if body.simulated then some "test_mode" else none) }
        match sdk.terminalReadersCreate readerParams with
        | .ok reader =>
            ⟨⟨201, .json (.obj [("status", .str "success"), ("reader", readerJson reader)])⟩,
             [.terminalReadersCreate readerParams]⟩
        | .error e =>
            ⟨errorResponse 500 e.message, [.terminalReadersCreate readerParams]⟩

/-- GET /api/readers/:readerId — get reader status (no null check before
responding). -/
def getReaderHandler (sdk : Sdk) (readerId : String) : HandlerResult :=
  match sdk.terminalReadersRetrieve readerId with
  | .ok reader =>
      ⟨⟨200, .json (.obj [("status", .str "success"), ("reader", optReaderJson reader)])⟩,
       [.terminalReadersRetrieve readerId]⟩
  | .error e =>
      ⟨errorResponse 500 e.message, [.terminalReadersRetrieve readerId]⟩

/-- POST /api/payments/create-payment-intent — validate, verify the reader,
then create a payment intent.  The amount check is `!amount || amount <= 0`. -/
def createPaymentIntentHandler (sdk : Sdk) (body : CreatePaymentIntentBody) : HandlerResult :=
  let currency := body.currency.getD simulatedReaderConfig.testMode.defaultCurrency
  match body.amount with
  | none => ⟨errorResponse 400 "Valid amount is required", []⟩
  | some amount =>
    if amount ≤ 0 then
      ⟨errorResponse 400 "Valid amount is required", []⟩
    else match body.readerId with
    | none => ⟨errorResponse 400 "Reader ID is required", []⟩
    | some readerId =>
      if readerId == "" then
        ⟨errorResponse 400 "Reader ID is required", []⟩
      else match sdk.terminalReadersRetrieve readerId with
      | .error e =>
          ⟨errorResponse 500 e.message, [.terminalReadersRetrieve readerId]⟩
      | .ok none =>
          ⟨errorResponse 404 "Reader not found", [.terminalReadersRetrieve readerId]⟩
      | .ok (some reader) =>
        if !body.simulated && reader.status != "online" then
          ⟨errorResponse 400 "Reader is not online", [.terminalReadersRetrieve readerId]⟩
        else
          let params : PaymentIntentParams :=
            { amount := jsMathRound (amount * 100)
              currency := currency
              payment_method_types := ["card_present"]
              capture_method := "manual"
              metadata_readerId := readerId }
          match sdk.paymentIntentsCreate params with
          | .error e =>
              ⟨errorResponse 500 e.message,
               [.terminalReadersRetrieve readerId, .paymentIntentsCreate params]⟩
          | .ok paymentIntent =>
              ⟨⟨200, .json (.obj [("status", .str "success"),
                                  ("paymentIntent", paymentIntentJson paymentIntent)])⟩,
               [.terminalReadersRetrieve readerId, .paymentIntentsCreate params]⟩

/-- POST /api/payments/capture-payment/:paymentIntentId. -/
def capturePaymentHandler (sdk : Sdk) (paymentIntentId : String) : HandlerResult :=
  match sdk.paymentIntentsCapture paymentIntentId with
  | .ok paymentIntent =>
      ⟨⟨200, .json (.obj [("status", .str "success"),
                          ("paymentIntent", paymentIntentJson paymentIntent)])⟩,
       [.paymentIntentsCapture paymentIntentId]⟩
  | .error e =>
      ⟨errorResponse 500 e.message, [.paymentIntentsCapture paymentIntentId]⟩

/-- POST /api/payments/cancel-payment/:paymentIntentId. -/
def cancelPaymentHandler (sdk : Sdk) (paymentIntentId : String) : HandlerResult :=
  match sdk.paymentIntentsCancel paymentIntentId with
  | .ok paymentIntent =>
      ⟨⟨200, .json (.obj [("status", .str "success"),
                          ("paymentIntent", paymentIntentJson paymentIntent)])⟩,
       [.paymentIntentsCancel paymentIntentId]⟩
  | .error e =>
      ⟨errorResponse 500 e.message, [.paymentIntentsCancel paymentIntentId]⟩

/-- The `switch (event.type)` of the webhook handler: the event-specific
response object it assembles (and, as the source stands, never sends). -/
def webhookEventSwitch (event : StripeEvent) : JsonVal :=
  if event.type == "payment_intent.succeeded" then
    .obj [("received", .bool true),
          ("status", .str "success"),
          ("payment_intent",
            .obj [("id", .str event.dataObject.id),
                  ("status", event.dataObject.status),
                  ("amount", event.dataObject.amount),
                  ("currency", event.dataObject.currency),
                  ("payment_method", event.dataObject.payment_method),
                  ("created", event.dataObject.created),
                  ("metadata", event.dataObject.metadata)])]
  else if event.type == "payment_intent.payment_failed" then
    .obj [("received", .bool true),
          ("status", .str "failed"),
          ("payment_intent",
            .obj [("id", .str event.dataObject.id),
                  ("status", event.dataObject.status),
                  ("amount", event.dataObject.amount),
                  ("currency", event.dataObject.currency),
                  ("error", event.dataObject.last_payment_error),
                  ("created", event.dataObject.created),
                  ("metadata", event.dataObject.metadata)])]
  else
    .obj [("received", .bool true)]

/-- POST /api/payments/webhook — verify the signature via the SDK; on success
the handler sends `{received: true}` (the switch result is computed but
unused), on a thrown error it sends a 400 plain-text body. -/
def webhookHandler (sdk : Sdk) (rawBody : String) (sig : Option String) : HandlerResult :=
  match sdk.webhooksConstructEvent rawBody sig with
  | .ok event =>
      let _response := webhookEventSwitch event
      ⟨⟨200, .json (.obj [("received", .bool true)])⟩,
       [.webhooksConstructEvent rawBody sig]⟩
  | .error e =>
      ⟨⟨400, .text ("Webhook Error: " ++ e.message)⟩,
       [.webhooksConstructEvent rawBody sig]⟩

/-- POST /api/payments/process-payment/:readerId — the online check is
unconditional; the body's `simulated` field is never consulted. -/
def processPaymentHandler (sdk : Sdk) (readerId : String) (body : ProcessPaymentBody) :
    HandlerResult :=
  match body.payment_intent with
  | none => ⟨errorResponse 400 "Payment intent ID is required", []⟩
  | some paymentIntentId =>
    if paymentIntentId == "" then
      ⟨errorResponse 400 "Payment intent ID is required", []⟩
    else match sdk.terminalReadersRetrieve readerId with
    | .error e =>
        ⟨errorResponse 500 e.message, [.terminalReadersRetrieve readerId]⟩
    | .ok none =>
        ⟨errorResponse 404 "Reader not found", [.terminalReadersRetrieve readerId]⟩
    | .ok (some reader) =>
      if reader.status != "online" then
        ⟨errorResponse 400 "Reader is not online", [.terminalReadersRetrieve readerId]⟩
      else
        match sdk.terminalReadersProcessPaymentIntent readerId paymentIntentId with
        | .error e =>
            ⟨errorResponse 500 e.message,
             [.terminalReadersRetrieve readerId,
              .terminalReadersProcessPaymentIntent readerId paymentIntentId]⟩
        | .ok processedReader =>
            ⟨⟨200, .json (.obj [("status", .str "success"),
                                ("reader", readerJson processedReader)])⟩,
             [.terminalReadersRetrieve readerId,
              .terminalReadersProcessPaymentIntent readerId paymentIntentId]⟩

/-- POST /api/payments/simulate-payment/:readerId. -/
def simulatePaymentHandler (sdk : Sdk) (readerId : String) : HandlerResult :=
  match sdk.terminalReadersRetrieve readerId with
  | .error e =>
      ⟨errorResponse 500 e.message, [.terminalReadersRetrieve readerId]⟩
  | .ok none =>
      ⟨errorResponse 404 "Reader not found", [.terminalReadersRetrieve readerId]⟩
  | .ok (some _reader) =>
    match sdk.testHelpersPresentPaymentMethod readerId with
    | .error e =>
        ⟨errorResponse 500 e.message,
         [.terminalReadersRetrieve readerId, .testHelpersPresentPaymentMethod readerId]⟩
    | .ok simulatedReader =>
        ⟨⟨200, .json (.obj [("status", .str "success"),
                            ("reader", readerJson simulatedReader)])⟩,
         [.terminalReadersRetrieve readerId, .testHelpersPresentPaymentMethod readerId]⟩

/-- POST /api/payments/create-and-process-payment/:readerId — validate, verify
the reader, create a payment intent, then process it on the reader. -/
def createAndProcessPaymentHandler (sdk : Sdk) (readerId : String)
    (body : CreateAndProcessBody) : HandlerResult :=
  let currency := body.currency.getD simulatedReaderConfig.testMode.defaultCurrency
  match body.amount with
  | none => ⟨errorResponse 400 "Valid amount is required", []⟩
  | some amount =>
    if amount ≤ 0 then
      ⟨errorResponse 400 "Valid amount is required", []⟩
    else match sdk.terminalReadersRetrieve readerId with
    | .error e =>
        ⟨errorResponse 500 e.message, [.terminalReadersRetrieve readerId]⟩
    | .ok none =>
        ⟨errorResponse 404 "Reader not found", [.terminalReadersRetrieve readerId]⟩
    | .ok (some reader) =>
      if !body.simulated && reader.status != "online" then
        ⟨errorResponse 400 "Reader is not online", [.terminalReadersRetrieve readerId]⟩
      else
        let params : PaymentIntentParams :=
          { amount := jsMathRound (amount * 100)
            currency := currency
            payment_method_types := ["card_present"]
            capture_method := "manual"
            metadata_readerId := readerId }
        match sdk.paymentIntentsCreate params with
        | .error e =>
            ⟨errorResponse 500 e.message,
             [.terminalReadersRetrieve readerId, .paymentIntentsCreate params]⟩
        | .ok paymentIntent =>
          match sdk.terminalReadersProcessPaymentIntent readerId paymentIntent.id with
          | .error e =>
              ⟨errorResponse 500 e.message,
               [.terminalReadersRetrieve readerId, .paymentIntentsCreate params,
                .terminalReadersProcessPaymentIntent readerId paymentIntent.id]⟩
          | .ok processedReader =>
              ⟨⟨200, .json (.obj [("status", .str "success"),
                                  ("paymentIntent", paymentIntentJson paymentIntent),
                                  ("reader", readerJson processedReader)])⟩,
               [.terminalReadersRetrieve readerId, .paymentIntentsCreate params,
                .terminalReadersProcessPaymentIntent readerId paymentIntent.id]⟩

/-- GET /api/payment-status/:paymentIntentId. -/
def paymentStatusHandler (sdk : Sdk) (paymentIntentId : String) : HandlerResult :=
  match sdk.paymentIntentsRetrieve paymentIntentId with
  | .error e =>
      ⟨errorResponse 500 e.message, [.paymentIntentsRetrieve paymentIntentId]⟩
  | .ok none =>
      ⟨errorResponse 404 "Payment intent not found", [.paymentIntentsRetrieve paymentIntentId]⟩
  | .ok (some paymentIntent) =>
      ⟨⟨200, .json (.obj [("status", .str "success"),
                          ("payment_intent",
                            .obj [("id", .str paymentIntent.id),
                                  ("status", paymentIntent.status),
                                  ("amount", paymentIntent.amount),
                                  ("currency", paymentIntent.currency),
                                  ("payment_method", paymentIntent.payment_method),
                                  ("created", paymentIntent.created),
                                  ("metadata", paymentIntent.metadata),
                                  ("last_payment_error", paymentIntent.last_payment_error)])])⟩,
       [.paymentIntentsRetrieve paymentIntentId]⟩

/-- A request to one of the API endpoints, with its path parameters and parsed
body. -/
inductive Request where
  | listReaders
  | registerReader (body : RegisterBody)
  | getReader (readerId : String)
  | createPaymentIntent (body : CreatePaymentIntentBody)
  | capturePayment (paymentIntentId : String)
  | cancelPayment (paymentIntentId : String)
  | webhook (rawBody : String) (sig : Option String)
  | processPayment (readerId : String) (body : ProcessPaymentBody)
  | simulatePayment (readerId : String)
  | createAndProcessPayment (readerId : String) (body : CreateAndProcessBody)
  | paymentStatus (paymentIntentId : String)

/-- Dispatch a request to its handler, exactly as the Express routers mount
them. -/
def route (sdk : Sdk) : Request → HandlerResult
  | .listReaders => listReadersHandler sdk
  | .registerReader body => registerReaderHandler sdk body
  | .getReader readerId => getReaderHandler sdk readerId
  | .createPaymentIntent body => createPaymentIntentHandler sdk body
  | .capturePayment paymentIntentId => capturePaymentHandler sdk paymentIntentId
  | .cancelPayment paymentIntentId => cancelPaymentHandler sdk paymentIntentId
  | .webhook rawBody sig => webhookHandler sdk rawBody sig
  | .processPayment readerId body => processPaymentHandler sdk readerId body
  | .simulatePayment readerId => simulatePaymentHandler sdk readerId
  | .createAndProcessPayment readerId body => createAndProcessPaymentHandler sdk readerId body
  | .paymentStatus paymentIntentId => paymentStatusHandler sdk paymentIntentId

/-- Serve a sequence of requests.  The source keeps no state between requests,
so each request is dispatched independently. -/
def serve (sdk : Sdk) (reqs : List Request) : List HandlerResult :=
  reqs.map (route sdk)

/-- Whether a request targets the webhook endpoint. -/
def Request.isWebhook : Request → Bool
  | .webhook _ _ => true
  | _ => false

/-- The "status" field of a JSON body, when it is an object carrying a string
under that key. -/
def statusFieldOf : JsonVal → Option String
  | .obj fields =>
      match fields.lookup "status" with
      | some (.str s) => some s
      | _ => none
  | _ => none

/-- The envelope discipline the spec describes: a JSON body whose "status" is
"success" on a 2xx response and "error" on a 4xx or 5xx response. -/
def envelopeOk (r : HttpResponse) : Bool :=
  match r.body with
  | .text _ => false
  | .json v =>
    if 200 ≤ r.status && r.status < 300 then statusFieldOf v == some "success"
    else if 400 ≤ r.status && r.status < 600 then statusFieldOf v == some "error"
    else true

/-- Upper bound on the number of SDK calls each endpoint can perform on one
request. -/
def maxSdkCalls : Request → Nat
  | .listReaders => 1
  | .registerReader _ => 1
  | .getReader _ => 1
  | .createPaymentIntent _ => 2
  | .capturePayment _ => 1
  | .cancelPayment _ => 1
  | .webhook _ _ => 1
  | .processPayment _ _ => 2
  | .simulatePayment _ => 2
  | .createAndProcessPayment _ _ => 3
  | .paymentStatus _ => 1

/-! Concrete fixtures used by witnesses and counterexamples. -/

/-- A reader whose status is online. -/
def onlineReader : Reader := ⟨"online", .null⟩

/-- A reader whose status is offline. -/
def offlineReader : Reader := ⟨"offline", .null⟩

/-- A sample created payment intent. -/
def sampleIntent : PaymentIntent := ⟨"pi_1", .null⟩

/-- A sample payment intent object. -/
def samplePIObject : PaymentIntentObject :=
  ⟨"pi_1", .null, .null, .null, .null, .null, .null, .null⟩

/-- A sample webhook event of type payment_intent.succeeded. -/
def sampleEvent : StripeEvent := ⟨"payment_intent.succeeded", samplePIObject⟩

/-- An oracle on which every SDK operation succeeds and every retrieved reader
is online. -/
def sdkOk : Sdk where
  terminalReadersList := .ok ⟨[]⟩
  terminalReadersCreate := fun _ => .ok onlineReader
  terminalReadersRetrieve := fun _ => .ok (some onlineReader)
  paymentIntentsCreate := fun _ => .ok sampleIntent
  paymentIntentsCapture := fun _ => .ok sampleIntent
  paymentIntentsCancel := fun _ => .ok sampleIntent
  paymentIntentsRetrieve := fun _ => .ok (some samplePIObject)
  terminalReadersProcessPaymentIntent := fun _ _ => .ok onlineReader
  testHelpersPresentPaymentMethod := fun _ => .ok onlineReader
  webhooksConstructEvent := fun _ _ => .ok sampleEvent

/-- An oracle on which every SDK operation throws. -/
def sdkFail : Sdk where
  terminalReadersList := .error ⟨"boom"⟩
  terminalReadersCreate := fun _ => .error ⟨"boom"⟩
  terminalReadersRetrieve := fun _ => .error ⟨"boom"⟩
  paymentIntentsCreate := fun _ => .error ⟨"boom"⟩
  paymentIntentsCapture := fun _ => .error ⟨"boom"⟩
  paymentIntentsCancel := fun _ => .error ⟨"boom"⟩
  paymentIntentsRetrieve := fun _ => .error ⟨"boom"⟩
  terminalReadersProcessPaymentIntent := fun _ _ => .error ⟨"boom"⟩
  testHelpersPresentPaymentMethod := fun _ => .error ⟨"boom"⟩
  webhooksConstructEvent := fun _ _ => .error ⟨"boom"⟩

/-- `sdkOk`, except that every retrieved reader is offline. -/
def sdkOffline : Sdk :=
  { sdkOk with terminalReadersRetrieve := fun _ => .ok (some offlineReader) }

/-- C3: the webhook handler calls `stripe.webhooks.constructEvent` exactly once
and no other SDK operation; it responds 400 with body
`Webhook Error: <message>` if and only if `constructEvent` throws, and responds
200 otherwise; there is no retry or second verification attempt. -/
theorem claim3_webhook_delegation (sdk : Sdk) (rawBody : String) (sig : Option String) :
    (webhookHandler sdk rawBody sig).calls = [.webhooksConstructEvent rawBody sig] ∧
    ((webhookHandler sdk rawBody sig).response.status = 400 ↔
      ∃ e, sdk.webhooksConstructEvent rawBody sig = .error e) ∧
    (∀ e, sdk.webhooksConstructEvent rawBody sig = .error e →
      (webhookHandler sdk rawBody sig).response =
        ⟨400, .text ("Webhook Error: " ++ e.message)⟩) ∧
    (∀ event, sdk.webhooksConstructEvent rawBody sig = .ok event →
      (webhookHandler sdk rawBody sig).response.status = 200) := by
  rcases h : sdk.webhooksConstructEvent rawBody sig with e | event <;>
    simp [webhookHandler, h]

/-- Witness for C3 at a concrete throwing oracle. -/
theorem claim3_webhook_delegation_witness :
    (webhookHandler sdkFail "payload" none).response =
      ⟨400, .text ("Webhook Error: " ++ "boom")⟩ :=
  (claim3_webhook_delegation sdkFail "payload" none).2.2.1 ⟨"boom"⟩ rfl

/-- C5: the handlers are stateless and deterministic: serving a request inside
any history of other requests yields exactly the dispatch of that request, and
two occurrences of the same request with the same oracle yield identical
responses. -/
theorem claim5_stateless (sdk : Sdk) (pre mid post : List Request) (r : Request) :
    serve sdk (pre ++ r :: mid ++ r :: post) =
      serve sdk pre ++ route sdk r :: serve sdk mid ++ route sdk r :: serve sdk post := by
  simp [serve]

/-- C7: the list endpoint calls `stripe.terminal.readers.list` exactly once;
on success it responds 200 with the result's `data` array unchanged, and on a
thrown error it responds 500 with the error's message. -/
theorem claim7_list_passthrough (sdk : Sdk) :
    (listReadersHandler sdk).calls = [.terminalReadersList] ∧
    (∀ l, sdk.terminalReadersList = .ok l →
      (listReadersHandler sdk).response =
        ⟨200, .json (.obj [("status", .str "success"), ("readers", .arr l.data)])⟩) ∧
    (∀ e, sdk.terminalReadersList = .error e →
      (listReadersHandler sdk).response = errorResponse 500 e.message) := by
  rcases h : sdk.terminalReadersList with e | l <;> simp [listReadersHandler, h]

/-- Witness for C7 at a concrete succeeding oracle. -/
theorem claim7_list_passthrough_witness :
    (listReadersHandler sdkOk).response =
      ⟨200, .json (.obj [("status", .str "success"), ("readers", .arr [])])⟩ :=
  (claim7_list_passthrough sdkOk).2.1 ⟨[]⟩ rfl

/-- C9: whenever the webhook signature verifies, the response body is exactly
`{received: true}` regardless of the event type; the richer event-specific
object assembled by the switch differs from what is sent. -/
theorem claim9_webhook_response (sdk : Sdk) (rawBody : String) (sig : Option String)
    (event : StripeEvent) (h : sdk.webhooksConstructEvent rawBody sig = .ok event) :
    (webhookHandler sdk rawBody sig).response =
      ⟨200, .json (.obj [("received", .bool true)])⟩ ∧
    (event.type = "payment_intent.succeeded" ∨ event.type = "payment_intent.payment_failed" →
      webhookEventSwitch event ≠ .obj [("received", .bool true)]) := by
  constructor
  · simp [webhookHandler, h]
  · rintro (ht | ht) <;> simp [webhookEventSwitch, ht]

/-- Witness for C9 at a concrete verifying oracle and succeeded event. -/
theorem claim9_webhook_response_witness :
    (webhookHandler sdkOk "payload" none).response =
      ⟨200, .json (.obj [("received", .bool true)])⟩ :=
  (claim9_webhook_response sdkOk "payload" none sampleEvent rfl).1

/-- C10: the process-payment endpoint enforces the online check
unconditionally: whenever the retrieved reader is non-null and not online, the
handler responds 400 "Reader is not online" and never calls
`processPaymentIntent`, whatever the body's `simulated` field says. -/
theorem claim10_online_check (sdk : Sdk) (readerId : String) (body : ProcessPaymentBody)
    (reader : Reader) (pid : String)
    (hpi : body.payment_intent = some pid) (hne : pid ≠ "")
    (hr : sdk.terminalReadersRetrieve readerId = .ok (some reader))
    (hs : reader.status ≠ "online") :
    (processPaymentHandler sdk readerId body).response =
      errorResponse 400 "Reader is not online" ∧
    ∀ r p, SdkCall.terminalReadersProcessPaymentIntent r p ∉
      (processPaymentHandler sdk readerId body).calls := by
  simp [processPaymentHandler, hpi, hne, hr, hs]

/-- Witness for C10 at a concrete offline reader with `simulated: true` in the
body. -/
theorem claim10_online_check_witness :
    (processPaymentHandler sdkOffline "tmr_1" ⟨some "pi_1", true⟩).response =
      errorResponse 400 "Reader is not online" :=
  (claim10_online_check sdkOffline "tmr_1" ⟨some "pi_1", true⟩ offlineReader "pi_1" rfl
    (by decide) rfl (by decide)).1

/-- C4: when the amount is absent, zero or negative, both payment-creating
endpoints respond 400 with "Valid amount is required" and invoke no SDK method
at all. -/
theorem claim4_amount_validation (sdk : Sdk) (body : CreatePaymentIntentBody)
    (readerId : String) (body2 : CreateAndProcessBody)
    (h : body.amount = none ∨ ∃ a, body.amount = some a ∧ a ≤ 0)
    (h2 : body2.amount = none ∨ ∃ a, body2.amount = some a ∧ a ≤ 0) :
    createPaymentIntentHandler sdk body =
      ⟨errorResponse 400 "Valid amount is required", []⟩ ∧
    createAndProcessPaymentHandler sdk readerId body2 =
      ⟨errorResponse 400 "Valid amount is required", []⟩ := by
  constructor
  · rcases h with h | ⟨a, ha, hle⟩
    · simp [createPaymentIntentHandler, h]
    · simp [createPaymentIntentHandler, ha, hle]
  · rcases h2 with h2 | ⟨a, ha, hle⟩
    · simp [createAndProcessPaymentHandler, h2]
    · simp [createAndProcessPaymentHandler, ha, hle]

/-- Witness for C4 at a negative and a zero amount. -/
theorem claim4_amount_validation_witness :
    createPaymentIntentHandler sdkOk ⟨some (-5), none, some "tmr_1", false⟩ =
      ⟨errorResponse 400 "Valid amount is required", []⟩ ∧
    createAndProcessPaymentHandler sdkOk "tmr_1" ⟨some 0, none, false⟩ =
      ⟨errorResponse 400 "Valid amount is required", []⟩ :=
  claim4_amount_validation sdkOk ⟨some (-5), none, some "tmr_1", false⟩ "tmr_1"
    ⟨some 0, none, false⟩ (Or.inr ⟨-5, rfl, by norm_num⟩) (Or.inr ⟨0, rfl, le_refl 0⟩)

/-- C6: the register endpoint responds 400 "Registration code is required for
physical readers" exactly when `simulated` is false (or absent) and the
registration code is missing or empty; when `simulated` is true the code is
forced to "simulated-wpe" and `stripe.terminal.readers.create` is always
invoked. -/
theorem claim6_register_validation (sdk : Sdk) (body : RegisterBody) :
    ((registerReaderHandler sdk body).response =
        errorResponse 400 "Registration code is required for physical readers" ↔
      body.simulated = false ∧ jsFalsyStr body.registration_code = true) ∧
    (body.simulated = true →
      ∃ params, (registerReaderHandler sdk body).calls = [.terminalReadersCreate params] ∧
        params.registration_code = "simulated-wpe") := by
  obtain ⟨rc, lb, loc, sim⟩ := body
  cases sim
  · cases rc with
    | none => simp [registerReaderHandler, jsFalsyStr, errorResponse]
    | some s =>
      by_cases hs : s = ""
      · subst hs; simp [registerReaderHandler, jsFalsyStr, errorResponse]
      · rcases h : sdk.terminalReadersCreate
            { registration_code := s, label := jsOrStr lb none,
              location := jsOrStr loc none } with e | rd <;>
          simp [registerReaderHandler, jsFalsyStr, hs, h, errorResponse]
  · rcases h : sdk.terminalReadersCreate
        { registration_code := "simulated-wpe",
          label := jsOrStr lb (some "Simulated Reader"),
          location := jsOrStr loc (some "test_mode") } with e | rd <;>
      simp [registerReaderHandler, jsFalsyStr, h, errorResponse]

/-- Witness for C6: a simulated registration with no code invokes
`readers.create` with registration_code "simulated-wpe". -/
theorem claim6_register_validation_witness :
    ∃ params, (registerReaderHandler sdkOk ⟨none, none, none, true⟩).calls =
      [SdkCall.terminalReadersCreate params] ∧
      params.registration_code = "simulated-wpe" :=
  (claim6_register_validation sdkOk ⟨none, none, none, true⟩).2 rfl

/-- C8: whenever either payment-creating endpoint reaches
`stripe.paymentIntents.create`, the forwarded amount is
`Math.round(amount * 100)`, the payment method types are `["card_present"]`,
the capture method is "manual", and the metadata carries the reader id. -/
theorem claim8_amount_conversion (sdk : Sdk) (body : CreatePaymentIntentBody)
    (readerId : String) (body2 : CreateAndProcessBody) (a : ℚ)
    (h : body.amount = some a) (h2 : body2.amount = some a) :
    (∀ p, SdkCall.paymentIntentsCreate p ∈ (createPaymentIntentHandler sdk body).calls →
      p.amount = jsMathRound (a * 100) ∧ p.payment_method_types = ["card_present"] ∧
      p.capture_method = "manual" ∧
      ∀ rid, body.readerId = some rid → p.metadata_readerId = rid) ∧
    (∀ p, SdkCall.paymentIntentsCreate p ∈
        (createAndProcessPaymentHandler sdk readerId body2).calls →
      p.amount = jsMathRound (a * 100) ∧ p.payment_method_types = ["card_present"] ∧
      p.capture_method = "manual" ∧ p.metadata_readerId = readerId) := by
  constructor
  · intro p hp
    simp only [createPaymentIntentHandler, h] at hp
    repeat' split at hp
    all_goals simp_all
  · intro p hp
    simp only [createAndProcessPaymentHandler, h2] at hp
    repeat' split at hp
    all_goals simp_all

/-- A sample valid create-payment-intent body. -/
def cpiBodySample : CreatePaymentIntentBody := ⟨some 10, none, some "tmr_1", false⟩

/-- A sample valid create-and-process body. -/
def capBodySample : CreateAndProcessBody := ⟨some 10, none, false⟩

/-- The payment intent parameters both handlers build from `cpiBodySample` /
`capBodySample` and reader "tmr_1". -/
def piParamsSample : PaymentIntentParams :=
  { amount := jsMathRound ((10 : ℚ) * 100), currency := "usd",
    payment_method_types := ["card_present"], capture_method := "manual",
    metadata_readerId := "tmr_1" }

/-- Witness for C8 at a concrete body with amount 10. -/
theorem claim8_amount_conversion_witness :
    piParamsSample.amount = jsMathRound ((10 : ℚ) * 100) ∧
    piParamsSample.payment_method_types = ["card_present"] ∧
    piParamsSample.capture_method = "manual" ∧
    piParamsSample.metadata_readerId = "tmr_1" := by
  have hcalls : (createPaymentIntentHandler sdkOk cpiBodySample).calls =
      [SdkCall.terminalReadersRetrieve "tmr_1",
       SdkCall.paymentIntentsCreate piParamsSample] := rfl
  have hmem : SdkCall.paymentIntentsCreate piParamsSample ∈
      (createPaymentIntentHandler sdkOk cpiBodySample).calls := by
    rw [hcalls]
    exact List.mem_cons_of_mem _ (List.mem_cons_self _ _)
  have hc := (claim8_amount_conversion sdkOk cpiBodySample "tmr_1" capBodySample 10
      rfl rfl).1 piParamsSample hmem
  exact ⟨hc.1, hc.2.1, hc.2.2.1, hc.2.2.2 "tmr_1" rfl⟩

/-- C1 (amended): each handler performs a bounded, endpoint-specific number of
SDK calls: at most one for list, register, get-reader, capture, cancel,
webhook and payment-status, at most two for create-payment-intent,
process-payment and simulate-payment, and at most three for
create-and-process-payment. -/
theorem claim1_sdk_call_bound (sdk : Sdk) (req : Request) :
    (route sdk req).calls.length ≤ maxSdkCalls req := by
  cases req <;>
    simp only [route, maxSdkCalls, listReadersHandler, registerReaderHandler,
      getReaderHandler, createPaymentIntentHandler, capturePaymentHandler,
      cancelPaymentHandler, webhookHandler, processPaymentHandler,
      simulatePaymentHandler, createAndProcessPaymentHandler,
      paymentStatusHandler] <;>
    (repeat' split) <;> simp

/-- C1 counterexample: with a succeeding oracle, create-and-process-payment
performs three SDK calls and create-payment-intent two, not one. -/
theorem claim1_counterexample :
    (route sdkOk (.createAndProcessPayment "tmr_1" capBodySample)).calls =
      [.terminalReadersRetrieve "tmr_1", .paymentIntentsCreate piParamsSample,
       .terminalReadersProcessPaymentIntent "tmr_1" "pi_1"] ∧
    (route sdkOk (.createPaymentIntent cpiBodySample)).calls =
      [.terminalReadersRetrieve "tmr_1", .paymentIntentsCreate piParamsSample] ∧
    (route sdkOk (.createAndProcessPayment "tmr_1" capBodySample)).calls.length ≠ 1 ∧
    (route sdkOk (.createPaymentIntent cpiBodySample)).calls.length ≠ 1 := by
  have h3 : (route sdkOk (.createAndProcessPayment "tmr_1" capBodySample)).calls =
      [.terminalReadersRetrieve "tmr_1", .paymentIntentsCreate piParamsSample,
       .terminalReadersProcessPaymentIntent "tmr_1" "pi_1"] := rfl
  have h2 : (route sdkOk (.createPaymentIntent cpiBodySample)).calls =
      [.terminalReadersRetrieve "tmr_1", .paymentIntentsCreate piParamsSample] := rfl
  refine ⟨h3, h2, ?_, ?_⟩
  · rw [h3]; simp
  · rw [h2]; simp

/-- C2 (amended): every endpoint other than the webhook responds with a JSON
envelope whose "status" field is "success" on a 2xx response and "error" on a
4xx or 5xx response. -/
theorem claim2_envelope (sdk : Sdk) (req : Request) (h : req.isWebhook = false) :
    envelopeOk (route sdk req).response = true := by
  cases req <;>
    first
    | (simp only [route, listReadersHandler, registerReaderHandler, getReaderHandler,
        createPaymentIntentHandler, capturePaymentHandler, cancelPaymentHandler,
        processPaymentHandler, simulatePaymentHandler, createAndProcessPaymentHandler,
        paymentStatusHandler]
       (repeat' split) <;> rfl)
    | exact absurd h (by simp [Request.isWebhook])

/-- Witness for C2 (amended) at the list endpoint. -/
theorem claim2_envelope_witness :
    envelopeOk (route sdkOk Request.listReaders).response = true :=
  claim2_envelope sdkOk Request.listReaders rfl

/-- C2 counterexample: the webhook endpoint's success response is a 200 whose
body `{received: true}` carries no "status" field at all. -/
theorem claim2_counterexample :
    (route sdkOk (.webhook "payload" (some "sig"))).response =
      ⟨200, .json (.obj [("received", .bool true)])⟩ ∧
    envelopeOk (route sdkOk (.webhook "payload" (some "sig"))).response = false :=
  ⟨rfl, rfl⟩

end StripeTerminalApi
